import Mathlib

/-!
Shallow embedding of the transport/session-management subsystem of
`template_project/microtvm_api_server.py` (class `Handler`): the methods
`close_transport`, `_await_ready`, `read_transport` and `write_transport`,
together with the session state they act on.

Modelling conventions:
* Bytes are `Nat`, byte strings are `List Nat`.
* Monotonic clock readings and timeouts (Python floats from
  `time.monotonic`) are modelled as rationals `ℚ`; the code only ever
  adds, subtracts, compares and clamps them, so any linearly ordered
  field embeds the behaviour faithfully.
* Python exceptions are modelled by the error type `Err`; a method that
  can raise returns `Except Err α`.
* Syscall outcomes (`select.select`, `os.read`, `os.write`,
  `os.killpg`) are inputs of the model, supplied by explicit oracle
  records, so that every theorem quantifies over all environments the
  operating system could present.
* Every transport operation additionally returns the list of syscalls it
  performed (`Event`), so that "no I/O was attempted" and "exactly one
  read" are provable statements about the trace.
-/

namespace MicrotvmEtiss

/-- The module-level debug flag: line 42 of `microtvm_api_server.py` reads
`DBG = False` (the `DBG = True` variant is commented out). -/
def DBG : Bool := false

/-- Errors the transport layer can raise.  `transportClosedError` and
`ioTimeoutError` are `server.TransportClosedError` / `server.IoTimeoutError`
from the project-API server module; `brokenPipeError` and
`processLookupError` are the Python builtins; `attributeErrorDisconnect`
is the `AttributeError` produced by looking up the undefined attribute
`disconnect_transport` (see `disconnect_transport` below). -/
inductive Err where
  | transportClosedError
  | ioTimeoutError
  | brokenPipeError
  | processLookupError
  | attributeErrorDisconnect
  deriving DecidableEq, Repr

/-- The child process handle held in `self._proc`: its pid and the file
descriptors of its `stdin` / `stdout` pipes (both switched to non-blocking
mode by `open_transport`). -/
structure Proc where
  pid : Nat
  stdinFd : Nat
  stdoutFd : Nat
  deriving DecidableEq, Repr

/-- The mutable session state of a `Handler` instance: `self._proc`
(`none` once torn down) and the diagnostic capture buffer `self.outputs`
(only ever touched when `DBG` is true). -/
structure HandlerState where
  proc : Option Proc
  outputs : List Nat
  deriving DecidableEq, Repr

/-- One observable syscall performed by the transport. -/
inductive Event where
  | selectCall (rlist wlist xlist : List Nat) (timeout : Option ℚ)
  | readCall (fd : Nat) (n : Nat)
  | writeCall (fd : Nat) (data : List Nat)
  | sigTerminate (pid : Nat)
  | sigKill (pid : Nat)
  | waitPid (pid : Nat)
  | killpgCall (pgrp : Nat)
  | dumpOutputs (bytes : List Nat)
  deriving DecidableEq, Repr

/-- Outcome of one `select.select(rlist, wlist, rlist + wlist, timeout)`
call: the subsets of handles reported readable, writable, and in an
exceptional condition. -/
structure SelectResult where
  rready : List Nat
  wready : List Nat
  xready : List Nat
  deriving DecidableEq, Repr

/-- All three result sets of a `select` call are empty: the return value
`select` produces exactly when its timeout expired with no handle ready. -/
def SelectResult.allEmpty (sel : SelectResult) : Prop :=
  sel.rready = [] ∧ sel.wready = [] ∧ sel.xready = []

instance (sel : SelectResult) : Decidable sel.allEmpty := by
  unfold SelectResult.allEmpty
  infer_instance

/-- The `select(2)` blocking contract for an infinite timeout: called with
`timeout = None`, `select` blocks until at least one handle is ready and
therefore never returns three empty lists. -/
def selectBlocks (timeout : Option ℚ) (sel : SelectResult) : Prop :=
  timeout = none → ¬ sel.allEmpty

/-- The timeout `_await_ready` hands to `select.select`: lines 395-396,
`if timeout_sec is None and end_time is not None: timeout_sec = max(0,
end_time - time.monotonic())`.  `now` is the `time.monotonic()` reading
taken inside `_await_ready`. -/
def awaitReadyTimeout (timeout_sec end_time : Option ℚ) (now : ℚ) : Option ℚ :=
  match timeout_sec, end_time with
  | none, some e => some (max 0 (e - now))
  | t, _ => t

/-- `Handler._await_ready` (lines 394-402): compute the `select` timeout,
perform one `select.select(rlist, wlist, rlist + wlist, timeout_sec)`
(outcome supplied by `sel`), raise `IoTimeoutError` when all three result
lists are empty, and return `True` otherwise.  Also returns the syscall
trace (the one `select` call with the timeout actually passed to it). -/
def awaitReady (rlist wlist : List Nat) (timeout_sec end_time : Option ℚ)
    (now : ℚ) (sel : SelectResult) : Except Err Bool × List Event :=
  let t := awaitReadyTimeout timeout_sec end_time now
  let ev := Event.selectCall rlist wlist (rlist ++ wlist) t
  if sel.allEmpty then (.error .ioTimeoutError, [ev])
  else (.ok true, [ev])

/-- Operating-system facts `close_transport` depends on:
`pgid pid` is the process group returned by `os.getpgid(pid)` (total here:
`close_transport` only reaches this call while `self._proc` is set, in
which case the child has never been waited on, so it is at worst a zombie
and still has a process group), and `killpgOk pgrp` says whether the group
still has at least one member when `os.killpg(pgrp, SIGKILL)` runs — when
it does not (the child was the only member and `proc.wait()` just reaped
it), `os.killpg` raises `ProcessLookupError`. -/
structure ProcEnv where
  pgid : Nat → Nat
  killpgOk : Nat → Bool

/-- `Handler.close_transport` (lines 379-392).  With `DBG` false the
diagnostic dump is skipped.  If `self._proc is None` the body does
nothing.  Otherwise: `pgrp = os.getpgid(proc.pid)`, `self._proc = None`,
`proc.terminate()`, `proc.kill()`, `proc.wait()` (none of which raise:
`Popen.send_signal` no-ops once the child is reaped and signalling a
zombie succeeds), then `os.killpg(pgrp, signal.SIGKILL)`, which raises
`ProcessLookupError` when the group is already gone.  The method contains
no `try`/`except`: any such error propagates to the caller. -/
def close_transport (env : ProcEnv) (s : HandlerState) :
    Except Err Unit × HandlerState × List Event :=
  let dbgEvs : List Event := if DBG then [Event.dumpOutputs s.outputs] else []
  match s.proc with
  | none => (.ok (), s, dbgEvs)
  | some proc =>
      let pgrp := env.pgid proc.pid
      let s' : HandlerState := { s with proc := none }
      let evs := dbgEvs ++ [Event.sigTerminate proc.pid, Event.sigKill proc.pid,
                            Event.waitPid proc.pid, Event.killpgCall pgrp]
      if env.killpgOk pgrp then (.ok (), s', evs)
      else (.error .processLookupError, s', evs)

/-- Outcome of the `os.read(fd, n)` call inside `read_transport`: either a
byte string of at most `n` bytes (possibly empty, meaning end-of-file), or
a raised `BrokenPipeError`. -/
inductive ReadResult where
  | bytes (bs : List Nat)
  | brokenPipe
  deriving DecidableEq, Repr

/-- Environment of one `read_transport` call: `now0` is the
`time.monotonic()` reading used to compute `end_time` at line 410, `now1`
the reading taken inside `_await_ready`, `sel` the `select` outcome, `rd`
the `os.read` outcome, and `env` the process facts consumed by the
`close_transport` invoked on the peer-closed path. -/
structure ReadOracle where
  now0 : ℚ
  now1 : ℚ
  sel : SelectResult
  rd : ReadResult
  env : ProcEnv

/-- `Handler.read_transport` (lines 404-425).  Raise `TransportClosedError`
at once when `self._proc is None`.  Otherwise compute
`end_time = None if timeout_sec is None else time.monotonic() + timeout_sec`,
then run `self._await_ready([fd], [], end_time=end_time)` and
`to_return = os.read(fd, n)` inside a `try` whose `except BrokenPipeError`
sets `to_return = 0`; `IoTimeoutError` from `_await_ready` is not caught
and propagates.  `if not to_return:` run `self.close_transport()` and raise
`TransportClosedError`; errors raised by `close_transport` itself
propagate in place of that `raise`.  On bytes, append them to
`self.outputs` when `DBG` and return them. -/
def read_transport (o : ReadOracle) (n : Nat) (timeout_sec : Option ℚ)
    (s : HandlerState) : Except Err (List Nat) × HandlerState × List Event :=
  match s.proc with
  | none => (.error .transportClosedError, s, [])
  | some proc =>
      let fd := proc.stdoutFd
      let end_time := timeout_sec.map (fun t => o.now0 + t)
      match awaitReady [fd] [] none end_time o.now1 o.sel with
      | (.error e, evs) => (.error e, s, evs)
      | (.ok _, evs) =>
          let evs := evs ++ [Event.readCall fd n]
          let to_return : List Nat :=
            match o.rd with
            | .bytes bs => bs
            | .brokenPipe => []
          if to_return = [] then
            match close_transport o.env s with
            | (.error e, s', cevs) => (.error e, s', evs ++ cevs)
            | (.ok _, s', cevs) => (.error .transportClosedError, s', evs ++ cevs)
          else
            let s' := if DBG then { s with outputs := s.outputs ++ to_return } else s
            (.ok to_return, s', evs)

/-- `self.disconnect_transport()` at line 444 of `write_transport`.  No
method of this name is defined anywhere in the repository — the `Handler`
class defines `open_transport`, `close_transport`, `_await_ready`,
`read_transport` and `write_transport` — and the external base interface
`tvm.micro.project_api.server.ProjectAPIHandler` declares only
`server_info_query`, `generate_project`, `build`, `flash`,
`open_transport`, `close_transport`, `read_transport` and
`write_transport`.  In Python the attribute lookup therefore raises
`AttributeError` before anything else happens: no session state changes
and no syscall is issued.  (Contrast `read_transport`, whose peer-closed
path calls the defined method `close_transport`.) -/
def disconnect_transport (s : HandlerState) :
    Except Err Unit × HandlerState × List Event :=
  (.error .attributeErrorDisconnect, s, [])

/-- Outcome of one `os.write(fd, data)` call inside the `write_transport`
loop: either `written k` — the call accepted the first `k` bytes of
`data` — or a raised `BrokenPipeError` (turned into `num_written = 0` by
the surrounding `except`). -/
inductive WriteResult where
  | written (k : Nat)
  | brokenPipe
  deriving DecidableEq, Repr

/-- Environment of one iteration of the `write_transport` loop: `now` is
the `time.monotonic()` reading taken inside that iteration's
`_await_ready`, `sel` its `select` outcome, and `wr` the `os.write`
outcome. -/
structure WriteStep where
  now : ℚ
  sel : SelectResult
  wr : WriteResult

/-- The `while data:` loop of `Handler.write_transport` (lines 436-446),
started at iteration index `i` with `data` still unsent.  Each iteration:
`self._await_ready([], [fd], end_time=end_time)` (an `IoTimeoutError`
propagates), then `num_written = os.write(fd, data)` with
`except BrokenPipeError: num_written = 0`; `if not num_written:` run
`self.disconnect_transport()` and then raise `TransportClosedError`
(unreachable, since the lookup of `disconnect_transport` already raises);
otherwise `data = data[num_written:]` and loop.  Besides the result,
state and trace, returns the list of byte chunks accepted by the
successive `os.write` calls. -/
def writeLoop (fd : Nat) (end_time : Option ℚ) (steps : Nat → WriteStep)
    (i : Nat) (data : List Nat) (s : HandlerState) :
    Except Err Unit × HandlerState × List Event × List (List Nat) :=
  if hd : data = [] then (.ok (), s, [], [])
  else
    match awaitReady [] [fd] none end_time (steps i).now (steps i).sel with
    | (.error e, evs) => (.error e, s, evs, [])
    | (.ok _, evs) =>
        let evs := evs ++ [Event.writeCall fd data]
        let num_written : Nat :=
          match (steps i).wr with
          | .written k => k
          | .brokenPipe => 0
        if hw : num_written = 0 then
          match disconnect_transport s with
          | (.error e, s', devs) => (.error e, s', evs ++ devs, [])
          | (.ok _, s', devs) => (.error .transportClosedError, s', evs ++ devs, [])
        else
          let rest := writeLoop fd end_time steps (i + 1) (data.drop num_written) s
          (rest.1, rest.2.1, evs ++ rest.2.2.1, data.take num_written :: rest.2.2.2)
termination_by data.length
decreasing_by
  have h1 : 0 < data.length := List.length_pos.mpr hd
  simp only [List.length_drop]
  omega

/-- `Handler.write_transport` (lines 427-447).  Raise
`TransportClosedError` at once when `self._proc is None`; otherwise
compute the single `end_time` from `time.monotonic()` (reading `now0`)
and `timeout_sec`, and run the partial-write loop with that fixed
deadline. -/
def write_transport (now0 : ℚ) (steps : Nat → WriteStep) (data : List Nat)
    (timeout_sec : Option ℚ) (s : HandlerState) :
    Except Err Unit × HandlerState × List Event × List (List Nat) :=
  match s.proc with
  | none => (.error .transportClosedError, s, [], [])
  | some proc =>
      let fd := proc.stdinFd
      let end_time := timeout_sec.map (fun t => now0 + t)
      writeLoop fd end_time steps 0 data s

/-! Concrete fixtures used by witnesses and counterexamples. -/

/-- A child process with pid 100 whose stdin pipe is fd 4 and stdout pipe
is fd 5. -/
def proc0 : Proc := ⟨100, 4, 5⟩

/-- A live session holding `proc0`, empty capture buffer. -/
def live0 : HandlerState := ⟨some proc0, []⟩

/-- A session already torn down (`self._proc is None`). -/
def closed0 : HandlerState := ⟨none, []⟩

/-- Process environment in which the child's process group is still
populated when `os.killpg` runs: the group kill succeeds. -/
def envOk : ProcEnv := ⟨fun _ => 100, fun _ => true⟩

/-- Process environment in which the child was the only member of its
group and has already been reaped by `proc.wait()`: `os.killpg` raises
`ProcessLookupError`. -/
def envGone : ProcEnv := ⟨fun _ => 100, fun _ => false⟩

/-! Theorems settling the claims. -/

/-- C3: on a session whose process handle is `none` (already torn down),
every `read_transport` and every `write_transport` call fails immediately
with `TransportClosedError`, leaves the state untouched, and performs no
I/O at all — its syscall trace is empty (no readiness wait, no read or
write syscall). -/
theorem closed_session_fails_immediately (o : ReadOracle)
    (now0 : ℚ) (steps : Nat → WriteStep) (n : Nat) (data : List Nat)
    (t t' : Option ℚ) (s : HandlerState) (h : s.proc = none) :
    read_transport o n t s = (.error .transportClosedError, s, []) ∧
    write_transport now0 steps data t' s
      = (.error .transportClosedError, s, [], []) := by
  rcases s with ⟨p, outs⟩
  simp only at h
  subst h
  exact ⟨rfl, rfl⟩

/-- Witness for C3 at a concrete torn-down session. -/
theorem closed_session_fails_immediately_witness :
    read_transport ⟨0, 0, ⟨[], [], []⟩, .bytes [], envOk⟩ 8 (some 1) closed0
      = (.error .transportClosedError, closed0, []) ∧
    write_transport 0 (fun _ => ⟨0, ⟨[], [], []⟩, .written 1⟩) [1, 2] (some 1) closed0
      = (.error .transportClosedError, closed0, [], []) :=
  closed_session_fails_immediately _ _ _ _ _ _ _ _ rfl

/-- C6: `_await_ready` (called as at its two call sites, with
`timeout_sec = None` and an `end_time` deadline) raises `IoTimeoutError`
exactly when `select` comes back with no handle readable, none writable,
and no exceptional condition flagged on the union `rlist + wlist` — which,
by the `select` contract, is precisely the deadline expiring with nothing
ready; and with no deadline at all (`end_time = None`) the `select`
timeout is `None`, so `select` blocks until something is ready
(`selectBlocks`) and `IoTimeoutError` is never raised. -/
theorem awaitReady_ioTimeout_iff (rl wl : List Nat) (e : Option ℚ) (now : ℚ)
    (sel : SelectResult) (hblock : selectBlocks (awaitReadyTimeout none e now) sel) :
    ((awaitReady rl wl none e now sel).1 = .error .ioTimeoutError
      ↔ sel.allEmpty) ∧
    (e = none → (awaitReady rl wl none e now sel).1 = .ok true) := by
  unfold awaitReady
  constructor
  · by_cases h : sel.allEmpty <;> simp [h]
  · intro he
    subst he
    have hne : ¬ sel.allEmpty := hblock rfl
    simp [hne]

/-- Witness for C6: a ready handle under an infinite deadline never sees
`IoTimeoutError`. -/
theorem awaitReady_ioTimeout_iff_witness :
    ¬ ((awaitReady [5] [] none none 0 ⟨[5], [], []⟩).1
        = .error .ioTimeoutError) ∧
    (awaitReady [5] [] none none 0 ⟨[5], [], []⟩).1 = .ok true := by
  have h := awaitReady_ioTimeout_iff [5] [] none 0 ⟨[5], [], []⟩
    (by intro _ hall; exact absurd hall (by decide))
  exact ⟨fun hc => absurd (h.1.mp hc) (by decide), h.2 rfl⟩

/-- C9: entering `_await_ready` with an already-expired deadline
(`end_time ≤ now`) is not rejected: the relative timeout handed to
`select` is clamped to `0` (`max(0, end_time - time.monotonic())`), so one
final zero-timeout poll happens, the wait still succeeds when something is
already ready, and `IoTimeoutError` is raised only when nothing is ready
at that instant. -/
theorem awaitReady_expired_deadline_polls (rl wl : List Nat) (e now : ℚ)
    (sel : SelectResult) (h : e ≤ now) :
    awaitReadyTimeout none (some e) now = some 0 ∧
    (¬ sel.allEmpty → (awaitReady rl wl none (some e) now sel).1 = .ok true) ∧
    (sel.allEmpty →
      (awaitReady rl wl none (some e) now sel).1 = .error .ioTimeoutError) := by
  refine ⟨?_, ?_, ?_⟩
  · unfold awaitReadyTimeout
    have : e - now ≤ 0 := sub_nonpos.mpr h
    simp [max_eq_left this]
  · intro hne
    simp [awaitReady, hne]
  · intro hall
    simp [awaitReady, hall]

/-- Witness for C9: deadline 1 already passed at clock 3, stdout fd 5
readable, the clamped poll still succeeds. -/
theorem awaitReady_expired_deadline_polls_witness :
    awaitReadyTimeout none (some 1) 3 = some 0 ∧
    (awaitReady [5] [] none (some 1) 3 ⟨[5], [], []⟩).1 = .ok true :=
  ⟨(awaitReady_expired_deadline_polls [5] [] 1 3 ⟨[5], [], []⟩ (by norm_num)).1,
   (awaitReady_expired_deadline_polls [5] [] 1 3 ⟨[5], [], []⟩ (by norm_num)).2.1
     (by decide)⟩

/-- C7: `close_transport` is idempotent.  On a session already torn down
it returns immediately with no error, no state change and no syscall; at
the end of any `close_transport` call the process handle is `none`; hence
a second consecutive call (under any process environment) returns with no
error and an empty syscall trace — no process-signal side effect. -/
theorem close_transport_idempotent (env env' : ProcEnv) (s : HandlerState) :
    (s.proc = none → close_transport env s = (.ok (), s, [])) ∧
    ((close_transport env s).2.1).proc = none ∧
    close_transport env' (close_transport env s).2.1
      = (.ok (), (close_transport env s).2.1, []) := by
  rcases s with ⟨p, outs⟩
  cases p with
  | none => exact ⟨fun _ => rfl, rfl, rfl⟩
  | some proc =>
      refine ⟨fun h => by simp at h, ?_, ?_⟩ <;>
        · unfold close_transport DBG
          by_cases hk : env.killpgOk (env.pgid proc.pid) <;> simp [hk]

/-- Witness for C7: closing an already-closed session is a silent no-op,
and after closing a live session the handle is `none` and the second
close does nothing. -/
theorem close_transport_idempotent_witness :
    close_transport envOk closed0 = (.ok (), closed0, []) ∧
    ((close_transport envGone live0).2.1).proc = none ∧
    close_transport envOk (close_transport envGone live0).2.1
      = (.ok (), (close_transport envGone live0).2.1, []) :=
  ⟨(close_transport_idempotent envOk envOk closed0).1 rfl,
   (close_transport_idempotent envGone envOk live0).2.1,
   (close_transport_idempotent envGone envOk live0).2.2⟩

/-- C10 (amended wording of nothing — direct): on a live session,
`write_transport` with empty `data` returns success at once for every
timeout value (including a zero timeout): the `while data:` loop body
never runs, so no readiness wait and no write syscall happen (empty
trace, no accepted chunks) and the session state is unchanged. -/
theorem write_transport_empty_data (now0 : ℚ) (steps : Nat → WriteStep)
    (t : Option ℚ) (s : HandlerState) (p : Proc) (h : s.proc = some p) :
    write_transport now0 steps [] t s = (.ok (), s, [], []) := by
  rcases s with ⟨q, outs⟩
  simp only at h
  subst h
  unfold write_transport writeLoop
  simp

/-- Witness for C10 with a zero timeout on a concrete live session. -/
theorem write_transport_empty_data_witness :
    write_transport 7 (fun _ => ⟨7, ⟨[], [], []⟩, .written 1⟩) [] (some 0) live0
      = (.ok (), live0, [], []) :=
  write_transport_empty_data 7 (fun _ => ⟨7, ⟨[], [], []⟩, .written 1⟩)
    (some 0) live0 proc0 rfl

/-- C2, counterexample: `close_transport` can raise.  On a live session
whose child was the sole member of its process group (so the group is
empty once `proc.wait()` reaps it), the final
`os.killpg(pgrp, signal.SIGKILL)` raises `ProcessLookupError`, and
`close_transport` — which contains no `try`/`except` — lets it escape:
the call does not return success, refuting "teardown never raises past
its own boundary, for every session state". -/
theorem close_transport_raises_counterexample :
    (close_transport envGone live0).1 = .error .processLookupError ∧
    (close_transport envGone live0).1 ≠ .ok () := by
  refine ⟨rfl, ?_⟩
  intro h
  simp [close_transport, envGone, live0, proc0, DBG] at h

/-- C2, amended: `close_transport` catches nothing.  Already-torn-down
sessions return without error; on a live session it clears the handle,
signals terminate and kill, waits, then issues the group kill, and when
the process group is already gone the `ProcessLookupError` of `os.killpg`
propagates to the caller (the one error this body can produce). -/
theorem close_transport_propagates_errors (env : ProcEnv) (s : HandlerState) :
    (s.proc = none → close_transport env s = (.ok (), s, [])) ∧
    (∀ p, s.proc = some p →
      close_transport env s =
        (if env.killpgOk (env.pgid p.pid) then Except.ok ()
         else Except.error .processLookupError,
         { s with proc := none },
         [Event.sigTerminate p.pid, Event.sigKill p.pid, Event.waitPid p.pid,
          Event.killpgCall (env.pgid p.pid)])) := by
  rcases s with ⟨q, outs⟩
  cases q with
  | none =>
      refine ⟨fun _ => rfl, fun p hp => by simp at hp⟩
  | some proc =>
      refine ⟨fun h => by simp at h, fun p hp => ?_⟩
      simp only [Option.some.injEq] at hp
      subst hp
      unfold close_transport DBG
      by_cases hk : env.killpgOk (env.pgid proc.pid) <;> simp [hk]

/-- Witness for the amended C2: on `live0` with the process group gone,
the four signalling syscalls run, the handle is cleared, and the
`ProcessLookupError` of the group kill propagates. -/
theorem close_transport_propagates_errors_witness :
    close_transport envGone live0 =
      (if envGone.killpgOk (envGone.pgid proc0.pid) then Except.ok ()
       else Except.error .processLookupError,
       { live0 with proc := none },
       [Event.sigTerminate proc0.pid, Event.sigKill proc0.pid,
        Event.waitPid proc0.pid, Event.killpgCall (envGone.pgid proc0.pid)]) :=
  (close_transport_propagates_errors envGone live0).2 proc0 rfl

/-- A read environment in which stdout fd 5 is readable, `os.read`
returns zero bytes (end-of-file), and the child's process group is
already gone when the triggered teardown reaches `os.killpg`. -/
def roGone : ReadOracle := ⟨0, 0, ⟨[5], [], []⟩, .bytes [], envGone⟩

/-- C4, counterexample: a `read_transport` call on a live session whose
`os.read` returns zero bytes does not always fail with
`TransportClosedError`.  With the child's process group already empty,
the `close_transport` run by the peer-closed path raises
`ProcessLookupError` from `os.killpg`, and — `read_transport` having no
handler around `self.close_transport()` — that error is what the call
fails with. -/
theorem read_peer_closed_error_counterexample :
    (read_transport roGone 10 (some 1) live0).1 = .error .processLookupError ∧
    (read_transport roGone 10 (some 1) live0).1
      ≠ .error .transportClosedError := by
  have h1 : (read_transport roGone 10 (some 1) live0).1
      = .error .processLookupError := rfl
  refine ⟨h1, ?_⟩
  rw [h1]
  intro h
  simp at h

/-- C4, amended: on a live session, when `os.read` returns zero bytes or
raises `BrokenPipeError` (after a successful readiness wait),
`read_transport` synchronously runs `close_transport`, leaving the
process handle `none`; it then fails with `TransportClosedError` when the
teardown's group kill succeeded, and with the teardown's own propagated
`ProcessLookupError` when the process group was already gone. -/
theorem read_transport_peer_closed_teardown (o : ReadOracle) (n : Nat)
    (t : Option ℚ) (s : HandlerState) (p : Proc) (hs : s.proc = some p)
    (hsel : ¬ o.sel.allEmpty)
    (hrd : o.rd = .bytes [] ∨ o.rd = .brokenPipe) :
    ((read_transport o n t s).2.1).proc = none ∧
    (read_transport o n t s).1 =
      (if o.env.killpgOk (o.env.pgid p.pid) then
        Except.error .transportClosedError
       else Except.error .processLookupError) := by
  rcases s with ⟨q, outs⟩
  simp only at hs
  subst hs
  unfold read_transport
  have hko : o.rd = ReadResult.bytes [] ∨ o.rd = ReadResult.brokenPipe := hrd
  unfold close_transport DBG
  rcases hko with hb | hb <;>
    by_cases hk : o.env.killpgOk (o.env.pgid p.pid) <;>
      simp [awaitReady, hsel, hb, hk]

/-- Witness for the amended C4: zero-byte read with the process group
still populated — the handle is cleared and `TransportClosedError` is
raised. -/
theorem read_transport_peer_closed_teardown_witness :
    ((read_transport ⟨0, 0, ⟨[5], [], []⟩, .bytes [], envOk⟩ 10 (some 1)
        live0).2.1).proc = none ∧
    (read_transport ⟨0, 0, ⟨[5], [], []⟩, .bytes [], envOk⟩ 10 (some 1)
        live0).1 =
      (if envOk.killpgOk (envOk.pgid proc0.pid) then
        Except.error .transportClosedError
       else Except.error .processLookupError) :=
  read_transport_peer_closed_teardown _ 10 (some 1) live0 proc0 rfl
    (by decide) (Or.inl rfl)

/-- C8: on a live session, once the readiness wait succeeds,
`read_transport` performs exactly one `os.read(fd, n)` — its syscall
trace is one `select` call followed by one read call, nothing more — and
when that read produces a non-empty byte string `bs` (of at most `n`
bytes, the `os.read` contract), it returns `bs` immediately with the
session untouched; the returned length lies between 1 and `n`. -/
theorem read_transport_single_read (o : ReadOracle) (n : Nat) (t : Option ℚ)
    (s : HandlerState) (p : Proc) (bs : List Nat) (hs : s.proc = some p)
    (hsel : ¬ o.sel.allEmpty) (hrd : o.rd = .bytes bs) (hne : bs ≠ [])
    (hlen : bs.length ≤ n) :
    read_transport o n t s =
      (.ok bs, s,
       [Event.selectCall [p.stdoutFd] [] [p.stdoutFd]
          (awaitReadyTimeout none (t.map (fun x => o.now0 + x)) o.now1),
        Event.readCall p.stdoutFd n]) ∧
    1 ≤ bs.length ∧ bs.length ≤ n := by
  rcases s with ⟨q, outs⟩
  simp only at hs
  subst hs
  refine ⟨?_, ?_, hlen⟩
  · unfold read_transport DBG
    simp [awaitReady, hsel, hrd, hne]
  · exact Nat.one_le_iff_ne_zero.mpr (by simpa using hne)

/-- Witness for C8: two bytes arrive against a request for ten. -/
theorem read_transport_single_read_witness :
    read_transport ⟨0, 0, ⟨[5], [], []⟩, .bytes [65, 66], envOk⟩ 10 (some 1)
        live0 =
      (.ok [65, 66], live0,
       [Event.selectCall [proc0.stdoutFd] [] [proc0.stdoutFd]
          (awaitReadyTimeout none ((some (1 : ℚ)).map (fun x => (0 : ℚ) + x)) 0),
        Event.readCall proc0.stdoutFd 10]) ∧
    1 ≤ [65, 66].length ∧ [65, 66].length ≤ 10 :=
  read_transport_single_read _ 10 (some 1) live0 proc0 [65, 66] rfl
    (by decide) rfl (by decide) (by decide)

/-- A write-loop environment whose `select` reports stdin fd 4 writable
and whose `os.write` raises `BrokenPipeError`. -/
def stepBroken : WriteStep := ⟨0, ⟨[], [4], []⟩, .brokenPipe⟩

/-- C1, behaviour at the failing input: on a live session, a write whose
`os.write` raises `BrokenPipeError` reaches
`self.disconnect_transport()` — an attribute the `Handler` class does not
have — so the call fails with `AttributeError`, not
`TransportClosedError`, and no teardown happens: the session state is
returned unchanged (still live) and the trace shows no termination
syscall, only the readiness wait and the failed write. -/
theorem write_peer_closed_attribute_error :
    write_transport 0 (fun _ => stepBroken) [7] (some 1) live0
      = (.error .attributeErrorDisconnect, live0,
         [Event.selectCall [] [4] [4] (some 1), Event.writeCall 4 [7]], []) := by
  have h0 : write_transport 0 (fun _ => stepBroken) [7] (some 1) live0
      = writeLoop 4 (some (0 + 1)) (fun _ => stepBroken) 0 [7] live0 := rfl
  rw [h0, writeLoop.eq_def]
  norm_num [stepBroken, awaitReady, awaitReadyTimeout, disconnect_transport,
    SelectResult.allEmpty]

/-- One unfolding of the partial-write loop on non-empty data, with the
traces normalised. -/
theorem writeLoop_cons (fd : Nat) (e : Option ℚ) (steps : Nat → WriteStep)
    (i : Nat) (b : Nat) (bs : List Nat) (s : HandlerState) :
    writeLoop fd e steps i (b :: bs) s =
      if (steps i).sel.allEmpty then
        (.error .ioTimeoutError, s,
         [Event.selectCall [] [fd] [fd] (awaitReadyTimeout none e (steps i).now)],
         [])
      else
        match (steps i).wr with
        | .brokenPipe =>
            (.error .attributeErrorDisconnect, s,
             [Event.selectCall [] [fd] [fd] (awaitReadyTimeout none e (steps i).now),
              Event.writeCall fd (b :: bs)], [])
        | .written 0 =>
            (.error .attributeErrorDisconnect, s,
             [Event.selectCall [] [fd] [fd] (awaitReadyTimeout none e (steps i).now),
              Event.writeCall fd (b :: bs)], [])
        | .written (k + 1) =>
            ((writeLoop fd e steps (i + 1) ((b :: bs).drop (k + 1)) s).1,
             (writeLoop fd e steps (i + 1) ((b :: bs).drop (k + 1)) s).2.1,
             Event.selectCall [] [fd] [fd] (awaitReadyTimeout none e (steps i).now)
               :: Event.writeCall fd (b :: bs)
               :: (writeLoop fd e steps (i + 1) ((b :: bs).drop (k + 1)) s).2.2.1,
             (b :: bs).take (k + 1)
               :: (writeLoop fd e steps (i + 1) ((b :: bs).drop (k + 1)) s).2.2.2) := by
  rw [writeLoop.eq_def]
  by_cases hsel : (steps i).sel.allEmpty
  · simp [awaitReady, hsel]
  · rcases hw : (steps i).wr with k | _
    · cases k with
      | zero => simp [awaitReady, hsel, hw, disconnect_transport]
      | succ k => simp [awaitReady, hsel, hw]
    · simp [awaitReady, hsel, hw, disconnect_transport]

/-- Across the whole partial-write loop: every `select` call in the
syscall trace carries a relative timeout derived from the one `end_time`
the loop was entered with, and when the loop returns success the accepted
chunks concatenate to exactly the data it was asked to send. -/
theorem writeLoop_deadline_and_chunks (fd : Nat) (e : Option ℚ)
    (steps : Nat → WriteStep) :
    ∀ (m : Nat) (data : List Nat) (i : Nat) (s : HandlerState),
      data.length ≤ m →
      ((∀ ev ∈ (writeLoop fd e steps i data s).2.2.1,
         ∀ rl wl xl tout, ev = Event.selectCall rl wl xl tout →
           ∃ j, tout = awaitReadyTimeout none e (steps j).now) ∧
       ((writeLoop fd e steps i data s).1 = .ok () →
         (writeLoop fd e steps i data s).2.2.2.flatten = data)) := by
  intro m
  induction m with
  | zero =>
      intro data i s hle
      have hd : data = [] := List.length_eq_zero.mp (Nat.le_zero.mp hle)
      subst hd
      rw [writeLoop.eq_def]
      simp
  | succ m ih =>
      intro data i s hle
      rcases data with _ | ⟨b, bs⟩
      · rw [writeLoop.eq_def]
        simp
      · rw [writeLoop_cons]
        by_cases hsel : (steps i).sel.allEmpty
        · simp only [if_pos hsel]
          refine ⟨?_, by simp⟩
          intro ev hev rl wl xl tout heq
          simp only [List.mem_singleton] at hev
          subst hev
          cases heq
          exact ⟨i, rfl⟩
        · simp only [if_neg hsel]
          rcases hw : (steps i).wr with k | _
          · cases k with
            | zero =>
                refine ⟨?_, by simp⟩
                intro ev hev rl wl xl tout heq
                subst heq
                simp only [List.mem_cons, List.not_mem_nil, or_false] at hev
                rcases hev with hev | hev
                · cases hev
                  exact ⟨i, rfl⟩
                · cases hev
            | succ k =>
                have hlen : ((b :: bs).drop (k + 1)).length ≤ m := by
                  simp only [List.length_drop, List.length_cons]
                  simp only [List.length_cons] at hle
                  omega
                have hih := ih ((b :: bs).drop (k + 1)) (i + 1) s hlen
                refine ⟨?_, ?_⟩
                · intro ev hev rl wl xl tout heq
                  subst heq
                  simp only [List.mem_cons] at hev
                  rcases hev with hev | hev | hev
                  · cases hev
                    exact ⟨i, rfl⟩
                  · cases hev
                  · exact hih.1 _ hev _ _ _ _ rfl
                · intro hok
                  simp only at hok
                  have hjoin := hih.2 hok
                  simp only [List.flatten_cons, hjoin]
                  exact List.take_append_drop (k + 1) (b :: bs)
          · refine ⟨?_, by simp⟩
            intro ev hev rl wl xl tout heq
            subst heq
            simp only [List.mem_cons, List.not_mem_nil, or_false] at hev
            rcases hev with hev | hev
            · cases hev
              exact ⟨i, rfl⟩
            · cases hev

/-- C5: `write_transport` computes one absolute deadline `now0 + t` from
the timeout at call start and shares it across every partial-write
iteration — every readiness wait in the call's trace passes `select` a
relative timeout of the form `max 0 ((now0 + t) - now_j)`, the clamp of
that single deadline against that iteration's clock reading, never a
fresh per-chunk budget — and on successful return the chunks accepted by
the successive `os.write` calls concatenate to exactly `data`, in order. -/
theorem write_transport_single_deadline (now0 : ℚ) (steps : Nat → WriteStep)
    (data : List Nat) (t : ℚ) (s : HandlerState) :
    (∀ ev ∈ (write_transport now0 steps data (some t) s).2.2.1,
      ∀ rl wl xl tout, ev = Event.selectCall rl wl xl tout →
        ∃ j, tout = some (max 0 ((now0 + t) - (steps j).now))) ∧
    ((write_transport now0 steps data (some t) s).1 = .ok () →
      (write_transport now0 steps data (some t) s).2.2.2.flatten = data) := by
  rcases s with ⟨q, outs⟩
  cases q with
  | none =>
      constructor
      · intro ev hev
        simp [write_transport] at hev
      · intro hok
        simp [write_transport] at hok
  | some p =>
      have hw : write_transport now0 steps data (some t)
          ⟨some p, outs⟩ = writeLoop p.stdinFd (some (now0 + t)) steps 0 data
            ⟨some p, outs⟩ := rfl
      rw [hw]
      have h := writeLoop_deadline_and_chunks p.stdinFd (some (now0 + t)) steps
        data.length data 0 ⟨some p, outs⟩ le_rfl
      refine ⟨?_, h.2⟩
      intro ev hev rl wl xl tout heq
      rcases h.1 ev hev rl wl xl tout heq with ⟨j, hj⟩
      exact ⟨j, hj⟩

/-- The partial-write loop on empty data returns at once. -/
theorem writeLoop_nil (fd : Nat) (e : Option ℚ) (steps : Nat → WriteStep)
    (i : Nat) (s : HandlerState) :
    writeLoop fd e steps i [] s = (.ok (), s, [], []) := by
  rw [writeLoop.eq_def]
  simp

/-- A write-loop environment whose `select` always reports stdin fd 4
writable and whose `os.write` accepts one byte per call. -/
def stepsOneByte : Nat → WriteStep := fun _ => ⟨0, ⟨[], [4], []⟩, .written 1⟩

/-- Witness for C5: a concrete two-byte write that needs two partial
writes succeeds with its accepted chunks concatenating back to the full
payload. -/
theorem write_transport_single_deadline_witness :
    (write_transport 0 stepsOneByte [7, 8] (some 5) live0).2.2.2.flatten
      = [7, 8] := by
  have hok : (write_transport 0 stepsOneByte [7, 8] (some 5) live0).1
      = .ok () := by
    have h0 : write_transport 0 stepsOneByte [7, 8] (some 5) live0
        = writeLoop 4 (some (0 + 5)) stepsOneByte 0 [7, 8] live0 := rfl
    rw [h0, writeLoop_cons]
    norm_num [stepsOneByte, SelectResult.allEmpty, writeLoop_cons, writeLoop_nil]
  exact (write_transport_single_deadline 0 stepsOneByte [7, 8] 5 live0).2 hok

end MicrotvmEtiss
